import Mathlib

/-!
Verification of the applicant identity and submission lifecycle of the
hackathon-management web application.

The development shallowly embeds the parts of the repository the claims
are about:

* the relational schema of `migrations/0000_boring_shiver_man.sql`
  (`otp_verifications`, `applicant_sessions`, `applicants`,
  `stage_submissions`, `competition_rounds`) as Lean structures;
* the client-side error handling of `client/src/pages/Registration.tsx`
  and the query client of `client/src/hooks/useAuth.ts` as Lean
  functions;
* the `express-rate-limit` middleware configured in the server entry
  file as an explicit fixed-window counter keyed on the client IP;
* the server-side operations (OTP authenticator, session manager,
  submission workflow, registration handler, bulk decision import),
  whose implementation files are not part of the source tree, modelled
  from the specification; each such definition carries a doc comment
  starting `Modelled from the spec:`.

Time is modelled as `Nat` (milliseconds); database ids as `Nat`;
user-visible identifiers, codes and tokens as `String`.
-/

namespace HackWeb

/-! ## OTP authenticator -/

/-- A row of the `otp_verifications` table
(`migrations/0000_boring_shiver_man.sql`): identifier (email or mobile),
code, purpose, expiry, one-shot `verified` flag and attempt counter. -/
structure OtpRow where
  id : Nat
  identifier : String
  otp : String
  purpose : String
  expiresAt : Nat
  verified : Bool
  attempts : Nat
  createdAt : Nat
deriving Repr, DecidableEq

/-- Modelled from the spec: the maximum number of verification attempts
per OTP row (`max_attempts`, e.g. 5); the authenticator implementation is
not in the source tree. -/
def maxAttempts : Nat := 5

/-- Modelled from the spec: `requestOtp(identifier, purpose)` persists a
new `OtpVerification` row with `verified=false`, `attempts=0`,
`expires_at = now + TTL`.  The generated code and fresh row id are passed
in explicitly; the store keeps the newest row first. -/
def requestOtp (store : List OtpRow) (rowId : Nat) (identifier purpose code : String)
    (now ttl : Nat) : List OtpRow :=
  { id := rowId, identifier := identifier, otp := code, purpose := purpose,
    expiresAt := now + ttl, verified := false, attempts := 0, createdAt := now } :: store

/-- Does this row match the lookup of `verifyOtp`: same identifier and
purpose, and not yet consumed? -/
def otpMatches (r : OtpRow) (identifier purpose : String) : Bool :=
  r.identifier = identifier && r.purpose = purpose && !r.verified

/-- Modelled from the spec: the lookup of `verifyOtp` — the latest
non-verified `OtpVerification` row for `(identifier, purpose)`; the store
is newest-first, so the first match is the latest row. -/
def findLatestUnverified (store : List OtpRow) (identifier purpose : String) : Option OtpRow :=
  store.find? (fun r => otpMatches r identifier purpose)

/-- Error kinds of OTP verification (§7 of the spec). -/
inductive VerifyError where
  | NotFound
  | Expired
  | AttemptsExceeded
  | Mismatch
deriving Repr, DecidableEq

/-- Result of `verifyOtp`: success carries the identifier so the caller
can proceed to session issuance. -/
inductive VerifyResult where
  | success (identifier : String)
  | failure (e : VerifyError)
deriving Repr, DecidableEq

/-- Apply `f` to every row of the store carrying the given id. -/
def updateRow (store : List OtpRow) (rowId : Nat) (f : OtpRow → OtpRow) : List OtpRow :=
  store.map (fun r => if r.id = rowId then f r else r)

/-- Modelled from the spec: `verifyOtp(identifier, purpose, code)` — the
authenticator implementation is not in the source tree.  Looks up the
latest non-verified row for `(identifier, purpose)`; fails with `NotFound`
if none exists, `Expired` if `expires_at` has passed, `AttemptsExceeded`
if `attempts ≥ max_attempts`, `Mismatch` if the code differs (incrementing
`attempts`); on match sets `verified := true` and succeeds, leaving
`attempts` unchanged. -/
def verifyOtp (store : List OtpRow) (identifier purpose code : String) (now : Nat) :
    VerifyResult × List OtpRow :=
  match findLatestUnverified store identifier purpose with
  | none => (.failure .NotFound, store)
  | some r =>
    if r.expiresAt < now then (.failure .Expired, store)
    else if maxAttempts ≤ r.attempts then (.failure .AttemptsExceeded, store)
    else if r.otp ≠ code then
      (.failure .Mismatch, updateRow store r.id (fun x => { x with attempts := x.attempts + 1 }))
    else
      (.success identifier, updateRow store r.id (fun x => { x with verified := true }))

/-- One call to `verifyOtp`, for stating multi-step properties. -/
structure VerifyCall where
  identifier : String
  purpose : String
  code : String
  time : Nat

/-- Run a sequence of `verifyOtp` calls against the store, keeping only
the final store. -/
def applyCalls (store : List OtpRow) : List VerifyCall → List OtpRow
  | [] => store
  | c :: rest => applyCalls (verifyOtp store c.identifier c.purpose c.code c.time).2 rest

/-! ### Helper lemmas about the OTP store -/

lemma findLatestUnverified_mem {store : List OtpRow} {identifier purpose : String} {r : OtpRow}
    (h : findLatestUnverified store identifier purpose = some r) : r ∈ store :=
  List.mem_of_find?_eq_some h

lemma findLatestUnverified_matches {store : List OtpRow} {identifier purpose : String}
    {r : OtpRow} (h : findLatestUnverified store identifier purpose = some r) :
    r.identifier = identifier ∧ r.purpose = purpose ∧ r.verified = false := by
  have hp := List.find?_some h
  simp only [otpMatches, Bool.and_eq_true, decide_eq_true_eq, Bool.not_eq_eq_eq_not,
    Bool.not_true] at hp
  exact ⟨hp.1.1, hp.1.2, hp.2⟩

/-- Updating rows with a function that keeps ids and keeps rows with the
watched id verified preserves the consumed-row property. -/
lemma updateRow_preserves_consumed {store : List OtpRow} {i0 : Nat}
    (h : ∀ r ∈ store, r.id = i0 → r.verified = true)
    (rowId : Nat) (f : OtpRow → OtpRow)
    (hfid : ∀ x, (f x).id = x.id)
    (hfv : ∀ x ∈ store, x.id = i0 → (f x).verified = true) :
    ∀ r ∈ updateRow store rowId f, r.id = i0 → r.verified = true := by
  intro r hr hid
  obtain ⟨y, hy, hry⟩ : ∃ y ∈ store, (if y.id = rowId then f y else y) = r := by
    simpa [updateRow] using hr
  by_cases hyid : y.id = rowId
  · rw [← hry, if_pos hyid] at hid ⊢
    exact hfv y hy (by rwa [hfid y] at hid)
  · rw [← hry, if_neg hyid] at hid ⊢
    exact h y hy hid

/-- A row already consumed (verified) stays consumed across any
`verifyOtp` call: no branch of `verifyOtp` un-sets `verified`. -/
lemma verifyOtp_preserves_consumed {store : List OtpRow} {i0 : Nat}
    (h : ∀ r ∈ store, r.id = i0 → r.verified = true)
    (identifier purpose code : String) (now : Nat) :
    ∀ r ∈ (verifyOtp store identifier purpose code now).2, r.id = i0 → r.verified = true := by
  unfold verifyOtp
  rcases hf : findLatestUnverified store identifier purpose with _ | r0
  · exact h
  · simp only
    split
    · exact h
    · split
      · exact h
      · split
        · exact updateRow_preserves_consumed h r0.id _ (fun x => rfl)
            (fun x hx hid => h x hx hid)
        · exact updateRow_preserves_consumed h r0.id _ (fun x => rfl)
            (fun x _ _ => rfl)

/-- Consumed rows stay consumed across any sequence of `verifyOtp`
calls. -/
lemma applyCalls_preserves_consumed {store : List OtpRow} {i0 : Nat}
    (h : ∀ r ∈ store, r.id = i0 → r.verified = true) :
    ∀ calls : List VerifyCall, ∀ r ∈ applyCalls store calls, r.id = i0 → r.verified = true := by
  intro calls
  induction calls generalizing store with
  | nil => simpa [applyCalls] using h
  | cons c rest ih =>
    simp only [applyCalls]
    exact ih (verifyOtp_preserves_consumed h c.identifier c.purpose c.code c.time)

/-- If every row with the given id is consumed, the `verifyOtp` lookup
never returns a row with that id. -/
lemma findLatestUnverified_ne_of_consumed {store : List OtpRow} {i0 : Nat}
    (h : ∀ r ∈ store, r.id = i0 → r.verified = true)
    {identifier purpose : String} {r : OtpRow}
    (hf : findLatestUnverified store identifier purpose = some r) : r.id ≠ i0 := by
  intro hid
  have hm := findLatestUnverified_matches hf
  have := h r (findLatestUnverified_mem hf) hid
  rw [hm.2.2] at this
  exact Bool.false_ne_true this

/-- After a successful verification, the resulting store is the input
store with the found row marked `verified`, and the returned identifier
is the one looked up. -/
lemma verifyOtp_success_store {store : List OtpRow} {identifier purpose code : String}
    {now : Nat} {r : OtpRow} {x : String} {s1 : List OtpRow}
    (hf : findLatestUnverified store identifier purpose = some r)
    (hs : verifyOtp store identifier purpose code now = (.success x, s1)) :
    s1 = updateRow store r.id (fun y => { y with verified := true }) ∧ x = identifier := by
  unfold verifyOtp at hs
  rw [hf] at hs
  simp only at hs
  split_ifs at hs with h1 h2 h3
  · simp at hs
  · simp at hs
  · simp at hs
  · simp only [Prod.mk.injEq, VerifyResult.success.injEq] at hs
    exact ⟨hs.2.symm, hs.1.symm⟩

/-- After marking the row with the given id verified, every row with that
id in the store is verified. -/
lemma consumed_after_set (store : List OtpRow) (rowId : Nat) :
    ∀ b ∈ updateRow store rowId (fun y => { y with verified := true }),
      b.id = rowId → b.verified = true := by
  intro b hb hid
  obtain ⟨y, hy, hyb⟩ :
      ∃ y ∈ store, (if y.id = rowId then { y with verified := true } else y) = b := by
    simpa [updateRow] using hb
  by_cases hyid : y.id = rowId
  · rw [← hyb, if_pos hyid]
  · rw [← hyb, if_neg hyid] at hid
    exact absurd hid hyid

/-- If the consumed row was the only unverified row matching the
identifier and purpose, the lookup finds nothing after consumption. -/
lemma findLatestUnverified_none_after_consume {store : List OtpRow} {r : OtpRow}
    {identifier purpose : String}
    (huniq : ∀ b ∈ store, otpMatches b identifier purpose = true → b.id = r.id) :
    findLatestUnverified (updateRow store r.id (fun y => { y with verified := true }))
      identifier purpose = none := by
  apply List.find?_eq_none.mpr
  intro x hx
  obtain ⟨y, hy, hyx⟩ :
      ∃ y ∈ store, (if y.id = r.id then { y with verified := true } else y) = x := by
    simpa [updateRow] using hx
  by_cases hyid : y.id = r.id
  · rw [← hyx, if_pos hyid]
    simp [otpMatches]
  · rw [← hyx, if_neg hyid]
    intro hmatch
    exact hyid (huniq y hy hmatch)

/-- The image of a row under an update targeting its own id is in the
updated store. -/
lemma updateRow_mem_self {store : List OtpRow} {r : OtpRow} (hr : r ∈ store)
    (f : OtpRow → OtpRow) : f r ∈ updateRow store r.id f := by
  have h := List.mem_map_of_mem (fun x => if x.id = r.id then f x else x) hr
  simpa [updateRow] using h

/-- C2: for every OTP row, `verifyOtp` succeeds at most once — after a
successful verification has set `verified = true` on the row it consumed,
no later `verifyOtp` call (any identifier, purpose, code, time, in any
sequence) ever finds that row again, and when the consumed row was the
only matching row for its identifier and purpose, the very next
verification attempt for that identifier and purpose returns `NotFound`
(already consumed), never a second success. -/
theorem verify_otp_single_use (store : List OtpRow) (identifier purpose code : String)
    (now : Nat) (r : OtpRow) (x : String) (s1 : List OtpRow)
    (hfind : findLatestUnverified store identifier purpose = some r)
    (hsucc : verifyOtp store identifier purpose code now = (.success x, s1)) :
    (∀ calls : List VerifyCall, ∀ i2 p2 : String, ∀ r2 : OtpRow,
        findLatestUnverified (applyCalls s1 calls) i2 p2 = some r2 → r2.id ≠ r.id)
    ∧ ((∀ b ∈ store, otpMatches b identifier purpose = true → b.id = r.id) →
        ∀ c2 : String, ∀ t2 : Nat,
          (verifyOtp s1 identifier purpose c2 t2).1 = .failure .NotFound) := by
  obtain ⟨hs1, -⟩ := verifyOtp_success_store hfind hsucc
  have hcons : ∀ b ∈ s1, b.id = r.id → b.verified = true := by
    rw [hs1]; exact consumed_after_set store r.id
  constructor
  · intro calls i2 p2 r2 hf2
    exact findLatestUnverified_ne_of_consumed
      (applyCalls_preserves_consumed hcons calls) hf2
  · intro huniq c2 t2
    have hnone : findLatestUnverified s1 identifier purpose = none := by
      rw [hs1]; exact findLatestUnverified_none_after_consume huniq
    unfold verifyOtp
    rw [hnone]

/-- Witness for C2 at a concrete store: one OTP row, verified
successfully once; the hypotheses and the single-use conclusions hold at
this input. -/
theorem verify_otp_single_use_witness :
    findLatestUnverified
        [{ id := 1, identifier := "9876543210", otp := "123456", purpose := "login",
           expiresAt := 1000, verified := false, attempts := 0, createdAt := 0 }]
        "9876543210" "login"
      = some { id := 1, identifier := "9876543210", otp := "123456", purpose := "login",
               expiresAt := 1000, verified := false, attempts := 0, createdAt := 0 }
    ∧ ((∀ calls : List VerifyCall, ∀ i2 p2 : String, ∀ r2 : OtpRow,
          findLatestUnverified
            (applyCalls
              [{ id := 1, identifier := "9876543210", otp := "123456", purpose := "login",
                 expiresAt := 1000, verified := true, attempts := 0, createdAt := 0 }] calls)
            i2 p2 = some r2 → r2.id ≠ 1)
        ∧ ((∀ b ∈ [{ id := 1, identifier := "9876543210", otp := "123456", purpose := "login",
                     expiresAt := 1000, verified := false, attempts := 0, createdAt := 0 }],
              otpMatches b "9876543210" "login" = true → OtpRow.id b = 1) →
            ∀ c2 : String, ∀ t2 : Nat,
              (verifyOtp
                [{ id := 1, identifier := "9876543210", otp := "123456", purpose := "login",
                   expiresAt := 1000, verified := true, attempts := 0, createdAt := 0 }]
                "9876543210" "login" c2 t2).1 = .failure .NotFound)) :=
  ⟨by decide,
   verify_otp_single_use
     [{ id := 1, identifier := "9876543210", otp := "123456", purpose := "login",
        expiresAt := 1000, verified := false, attempts := 0, createdAt := 0 }]
     "9876543210" "login" "123456" 10
     { id := 1, identifier := "9876543210", otp := "123456", purpose := "login",
       expiresAt := 1000, verified := false, attempts := 0, createdAt := 0 }
     "9876543210"
     [{ id := 1, identifier := "9876543210", otp := "123456", purpose := "login",
        expiresAt := 1000, verified := true, attempts := 0, createdAt := 0 }]
     (by decide) (by decide)⟩

/-- C3: once an OTP row's attempt counter has reached `max_attempts`,
every further `verifyOtp` call on it returns `AttemptsExceeded` even when
the supplied code is correct; below the limit a mismatching code yields
`Mismatch` and increments `attempts`, while a matching code succeeds
without incrementing `attempts`. -/
theorem verify_otp_attempts (store : List OtpRow) (identifier purpose code : String)
    (now : Nat) (r : OtpRow)
    (hfind : findLatestUnverified store identifier purpose = some r)
    (hexp : ¬ r.expiresAt < now) :
    (maxAttempts ≤ r.attempts →
      (verifyOtp store identifier purpose code now).1 = .failure .AttemptsExceeded)
    ∧ (r.attempts < maxAttempts → r.otp ≠ code →
        (verifyOtp store identifier purpose code now).1 = .failure .Mismatch
        ∧ { r with attempts := r.attempts + 1 } ∈ (verifyOtp store identifier purpose code now).2)
    ∧ (r.attempts < maxAttempts → r.otp = code →
        (verifyOtp store identifier purpose code now).1 = .success identifier
        ∧ { r with verified := true } ∈ (verifyOtp store identifier purpose code now).2) := by
  refine ⟨?_, ?_, ?_⟩
  · intro hA
    unfold verifyOtp
    rw [hfind]
    simp only
    rw [if_neg hexp, if_pos hA]
  · intro hA hcode
    unfold verifyOtp
    rw [hfind]
    simp only
    rw [if_neg hexp, if_neg (Nat.not_le_of_lt hA), if_pos hcode]
    exact ⟨rfl, updateRow_mem_self (findLatestUnverified_mem hfind) _⟩
  · intro hA hcode
    unfold verifyOtp
    rw [hfind]
    simp only
    rw [if_neg hexp, if_neg (Nat.not_le_of_lt hA), if_neg (not_not_intro hcode)]
    exact ⟨rfl, updateRow_mem_self (findLatestUnverified_mem hfind) _⟩

/-- Witness for C3 at a concrete store: a row whose attempt counter has
reached the maximum; verification with the correct code returns
`AttemptsExceeded`. -/
theorem verify_otp_attempts_witness :
    findLatestUnverified
        [{ id := 2, identifier := "applicant@mail.test", otp := "654321", purpose := "login",
           expiresAt := 1000, verified := false, attempts := 5, createdAt := 0 }]
        "applicant@mail.test" "login"
      = some { id := 2, identifier := "applicant@mail.test", otp := "654321",
               purpose := "login", expiresAt := 1000, verified := false, attempts := 5,
               createdAt := 0 }
    ∧ (verifyOtp
        [{ id := 2, identifier := "applicant@mail.test", otp := "654321", purpose := "login",
           expiresAt := 1000, verified := false, attempts := 5, createdAt := 0 }]
        "applicant@mail.test" "login" "654321" 10).1 = .failure .AttemptsExceeded :=
  ⟨by decide,
   (verify_otp_attempts
     [{ id := 2, identifier := "applicant@mail.test", otp := "654321", purpose := "login",
        expiresAt := 1000, verified := false, attempts := 5, createdAt := 0 }]
     "applicant@mail.test" "login" "654321" 10
     { id := 2, identifier := "applicant@mail.test", otp := "654321", purpose := "login",
       expiresAt := 1000, verified := false, attempts := 5, createdAt := 0 }
     (by decide) (by decide)).1 (by decide)⟩

/-! ## Session manager -/

/-- A row of the `applicant_sessions` table
(`migrations/0000_boring_shiver_man.sql`): unique session token, owning
applicant, expiry and last-activity timestamps. -/
structure SessionRow where
  sessionToken : String
  applicantId : String
  expiresAt : Nat
  lastActivity : Nat
deriving Repr, DecidableEq

/-- Modelled from the spec: `createSession(applicantId)` — the session
manager implementation is not in the source tree.  Persists a session
with `expires_at = now + sessionTTL` and `last_activity = now`; the
generated token is passed in explicitly. -/
def createSession (store : List SessionRow) (applicantId token : String)
    (now ttl : Nat) : List SessionRow :=
  { sessionToken := token, applicantId := applicantId,
    expiresAt := now + ttl, lastActivity := now } :: store

/-- Look up a session row by its token. -/
def findSession (store : List SessionRow) (token : String) : Option SessionRow :=
  store.find? (fun r => r.sessionToken = token)

/-- Result of `validateSession`. -/
inductive SessionResult where
  | valid (applicantId : String)
  | notFound
  | expired
deriving Repr, DecidableEq

/-- Modelled from the spec: `validateSession(token)` — the session
manager implementation is not in the source tree.  Fails with
`SessionNotFound` if the token is unknown, `SessionExpired` if
`now > expires_at`; on success resolves the owning applicant and updates
`last_activity`. -/
def validateSession (store : List SessionRow) (token : String) (now : Nat) :
    SessionResult × List SessionRow :=
  match findSession store token with
  | none => (.notFound, store)
  | some r =>
    if r.expiresAt < now then (.expired, store)
    else (.valid r.applicantId,
      store.map (fun x => if x.sessionToken = token then { x with lastActivity := now } else x))

/-- C4: for every applicant session and every time after its
`expires_at`, `validateSession` on that session's token returns
`SessionExpired` and never resolves to a valid applicant; for a token
with no session at all it returns `SessionNotFound`. -/
theorem validate_session_expiry (store : List SessionRow) (token : String) (now : Nat) :
    (∀ r : SessionRow, findSession store token = some r → r.expiresAt < now →
      (validateSession store token now).1 = .expired
      ∧ ∀ a : String, (validateSession store token now).1 ≠ .valid a)
    ∧ (findSession store token = none →
        (validateSession store token now).1 = .notFound) := by
  constructor
  · intro r hf hexp
    have hres : (validateSession store token now).1 = .expired := by
      unfold validateSession
      rw [hf]
      simp only
      rw [if_pos hexp]
    exact ⟨hres, fun a h => by rw [hres] at h; exact SessionResult.noConfusion h⟩
  · intro hf
    unfold validateSession
    rw [hf]

/-- Witness for C4 at a concrete store: a session expired at time 100,
validated at time 200, is reported expired; an unknown token is reported
not found. -/
theorem validate_session_expiry_witness :
    ((validateSession
        [{ sessionToken := "tok-abc", applicantId := "app-1",
           expiresAt := 100, lastActivity := 0 }] "tok-abc" 200).1 = .expired
      ∧ ∀ a : String,
          (validateSession
            [{ sessionToken := "tok-abc", applicantId := "app-1",
               expiresAt := 100, lastActivity := 0 }] "tok-abc" 200).1 ≠ .valid a)
    ∧ (validateSession
        [{ sessionToken := "tok-abc", applicantId := "app-1",
           expiresAt := 100, lastActivity := 0 }] "tok-other" 200).1 = .notFound :=
  ⟨(validate_session_expiry
      [{ sessionToken := "tok-abc", applicantId := "app-1",
         expiresAt := 100, lastActivity := 0 }] "tok-abc" 200).1
      { sessionToken := "tok-abc", applicantId := "app-1",
        expiresAt := 100, lastActivity := 0 } (by decide) (by decide),
   (validate_session_expiry
      [{ sessionToken := "tok-abc", applicantId := "app-1",
         expiresAt := 100, lastActivity := 0 }] "tok-other" 200).2 (by decide)⟩

/-- C6: round trip — `requestOtp` for an applicant identifier, then
`verifyOtp` with the exact issued code (before expiry), then
`createSession`, yields a token that `validateSession` (before session
expiry) accepts and resolves to the same applicant id used in the
initial `requestOtp`. -/
theorem otp_session_round_trip (otpStore : List OtpRow) (sessStore : List SessionRow)
    (rowId : Nat) (aid purpose code token : String)
    (now1 now2 now3 now4 ttl sttl : Nat)
    (h1 : now2 ≤ now1 + ttl) (h2 : now4 ≤ now3 + sttl) :
    (verifyOtp (requestOtp otpStore rowId aid purpose code now1 ttl) aid purpose code now2).1
      = .success aid
    ∧ (validateSession (createSession sessStore aid token now3 sttl) token now4).1
      = .valid aid := by
  constructor
  · have hfind : findLatestUnverified (requestOtp otpStore rowId aid purpose code now1 ttl)
        aid purpose
        = some { id := rowId, identifier := aid, otp := code, purpose := purpose,
                 expiresAt := now1 + ttl, verified := false, attempts := 0,
                 createdAt := now1 } := by
      unfold findLatestUnverified requestOtp
      rw [List.find?_cons_of_pos]
      simp [otpMatches]
    unfold verifyOtp
    rw [hfind]
    simp only
    rw [if_neg (by simpa using Nat.not_lt_of_le h1), if_neg (by simp [maxAttempts]),
      if_neg (by simp)]
  · have hfind : findSession (createSession sessStore aid token now3 sttl) token
        = some { sessionToken := token, applicantId := aid,
                 expiresAt := now3 + sttl, lastActivity := now3 } := by
      unfold findSession createSession
      rw [List.find?_cons_of_pos]
      simp
    unfold validateSession
    rw [hfind]
    simp only
    rw [if_neg (by simpa using Nat.not_lt_of_le h2)]

/-- Witness for C6 at concrete inputs: empty stores, identifier
`app-42`, code `246810`, token `tok-xyz`; the round trip resolves back
to `app-42`. -/
theorem otp_session_round_trip_witness :
    (10 : Nat) ≤ 0 + 600
    ∧ (40 : Nat) ≤ 20 + 86400
    ∧ (verifyOtp (requestOtp [] 7 "app-42" "login" "246810" 0 600) "app-42" "login"
        "246810" 10).1 = .success "app-42"
    ∧ (validateSession (createSession [] "app-42" "tok-xyz" 20 86400) "tok-xyz" 40).1
      = .valid "app-42" :=
  ⟨by decide, by decide,
   (otp_session_round_trip [] [] 7 "app-42" "login" "246810" "tok-xyz" 0 10 20 40 600 86400
     (by decide) (by decide)).1,
   (otp_session_round_trip [] [] 7 "app-42" "login" "246810" "tok-xyz" 0 10 20 40 600 86400
     (by decide) (by decide)).2⟩

/-! ## Submission workflow -/

/-- Status of a competition round (`competition_rounds.status`). -/
inductive StageStatus where
  | upcoming
  | active
  | closed
deriving Repr, DecidableEq

/-- A competition round (stage), as far as the submission workflow reads
it. -/
structure Stage where
  id : String
  status : StageStatus
deriving Repr, DecidableEq

/-- Status of a stage submission (`stage_submissions.status`). -/
inductive SubmissionStatus where
  | draft
  | submitted
  | underReview
  | accepted
  | rejected
  | needsRevision
deriving Repr, DecidableEq

/-- A row of the `stage_submissions` table
(`migrations/0000_boring_shiver_man.sql`), restricted to the fields the
workflow transitions touch. -/
structure StageSubmission where
  id : Nat
  applicantId : String
  stageId : String
  status : SubmissionStatus
  submittedAt : Option Nat
deriving Repr, DecidableEq

/-- The per-applicant gates the `draft → submitted` transition reads:
`applicants.submission_deadline` and `applicants.submission_enabled`. -/
structure ApplicantGates where
  submissionDeadline : Option Nat
  submissionEnabled : Bool
deriving Repr, DecidableEq

/-- Error kinds of the submission workflow (§7 of the spec). -/
inductive SubmitError where
  | StageClosed
  | DeadlinePassed
  | InvalidTransition
deriving Repr, DecidableEq

/-- Is `now` past the applicant's submission deadline (when one is
set)? -/
def pastDeadline (g : ApplicantGates) (now : Nat) : Bool :=
  match g.submissionDeadline with
  | some d => decide (d < now)
  | none => false

/-- Modelled from the spec: the `draft → submitted` transition — the
workflow implementation is not in the source tree.  Requires
`stage.status == active`, `now ≤ applicant.submission_deadline` (if set)
and `applicant.submission_enabled == true`; fails with `StageClosed` or
`DeadlinePassed` otherwise; on success sets `submitted_at = now`. -/
def submitDraft (sub : StageSubmission) (stage : Stage) (g : ApplicantGates)
    (now : Nat) : Except SubmitError StageSubmission :=
  if sub.status ≠ .draft then .error .InvalidTransition
  else if stage.status ≠ .active then .error .StageClosed
  else if pastDeadline g now then .error .DeadlinePassed
  else if !g.submissionEnabled then .error .StageClosed
  else .ok { sub with status := .submitted, submittedAt := some now }

/-- C5: the `draft → submitted` transition is rejected with
`StageClosed` when the stage is not active (and the deadline has not
passed), with `DeadlinePassed` when past the deadline (and the stage is
active); it succeeds only when the stage is active, the deadline has not
passed and submissions are enabled for the applicant, and on success it
sets `submitted_at` to the current time and the status to
`submitted`. -/
theorem submit_draft_guards (sub : StageSubmission) (stage : Stage)
    (g : ApplicantGates) (now : Nat) (hdraft : sub.status = .draft) :
    (stage.status ≠ .active → pastDeadline g now = false →
      submitDraft sub stage g now = .error .StageClosed)
    ∧ (stage.status = .active → pastDeadline g now = true →
        submitDraft sub stage g now = .error .DeadlinePassed)
    ∧ (∀ s2 : StageSubmission, submitDraft sub stage g now = .ok s2 →
        stage.status = .active ∧ pastDeadline g now = false
        ∧ g.submissionEnabled = true
        ∧ s2.submittedAt = some now ∧ s2.status = .submitted) := by
  have hnd : ¬ sub.status ≠ SubmissionStatus.draft := not_not_intro hdraft
  refine ⟨?_, ?_, ?_⟩
  · intro hstage hdl
    unfold submitDraft
    rw [if_neg hnd, if_pos hstage]
  · intro hstage hdl
    unfold submitDraft
    rw [if_neg hnd, if_neg (not_not_intro hstage), if_pos hdl]
  · intro s2 hok
    unfold submitDraft at hok
    rw [if_neg hnd] at hok
    by_cases hstage : stage.status ≠ .active
    · rw [if_pos hstage] at hok
      exact absurd hok (by simp)
    · rw [if_neg hstage] at hok
      by_cases hdl : pastDeadline g now
      · rw [if_pos hdl] at hok
        exact absurd hok (by simp)
      · rw [if_neg hdl] at hok
        by_cases hen : g.submissionEnabled
        · rw [if_neg (by simp [hen])] at hok
          simp only [Except.ok.injEq] at hok
          refine ⟨not_not.mp hstage, by simpa using hdl, hen, ?_, ?_⟩
          · rw [← hok]
          · rw [← hok]
        · rw [if_pos (by simp [hen])] at hok
          exact absurd hok (by simp)

/-- Witness for C5 at concrete inputs: a draft submission against a
closed stage before the deadline is rejected with `StageClosed`; the
same draft against an active stage after the deadline is rejected with
`DeadlinePassed`; against an active stage, in time, with submissions
enabled it succeeds with `submitted_at` set. -/
theorem submit_draft_guards_witness :
    submitDraft
        { id := 3, applicantId := "app-1", stageId := "stage-1",
          status := .draft, submittedAt := none }
        { id := "stage-1", status := .closed }
        { submissionDeadline := some 500, submissionEnabled := true } 100
      = .error .StageClosed
    ∧ submitDraft
        { id := 3, applicantId := "app-1", stageId := "stage-1",
          status := .draft, submittedAt := none }
        { id := "stage-1", status := .active }
        { submissionDeadline := some 500, submissionEnabled := true } 700
      = .error .DeadlinePassed
    ∧ (submitDraft
        { id := 3, applicantId := "app-1", stageId := "stage-1",
          status := .draft, submittedAt := none }
        { id := "stage-1", status := .active }
        { submissionDeadline := some 500, submissionEnabled := true } 100
      = .ok { id := 3, applicantId := "app-1", stageId := "stage-1",
              status := .submitted, submittedAt := some 100 }) :=
  ⟨(submit_draft_guards
      { id := 3, applicantId := "app-1", stageId := "stage-1",
        status := .draft, submittedAt := none }
      { id := "stage-1", status := .closed }
      { submissionDeadline := some 500, submissionEnabled := true } 100
      (by decide)).1 (by decide) (by decide),
   (submit_draft_guards
      { id := 3, applicantId := "app-1", stageId := "stage-1",
        status := .draft, submittedAt := none }
      { id := "stage-1", status := .active }
      { submissionDeadline := some 500, submissionEnabled := true } 700
      (by decide)).2.1 (by decide) (by decide),
   by rfl⟩

/-! ## Applicant identity store -/

/-- A row of the `applicants` table
(`migrations/0000_boring_shiver_man.sql`), restricted to the fields the
claims read.  The migration declares
`applicants_registration_id_unique UNIQUE(registration_id)` and
`applicants_mobile_unique UNIQUE(mobile)`. -/
structure Applicant where
  id : String
  registrationId : String
  name : String
  email : String
  mobile : String
  status : String
  submissionDeadline : Option Nat
  submissionEnabled : Bool
deriving Repr, DecidableEq

/-- Duplicate-key violations of the two unique constraints of the
`applicants` table. -/
inductive RegError where
  | DuplicateMobile
  | DuplicateRegistrationId
deriving Repr, DecidableEq

/-- Modelled from the spec: inserting a new applicant at registration —
the server handler is not in the source tree.  The insert enforces the
`applicants_mobile_unique` and `applicants_registration_id_unique`
constraints of the migration. -/
def registerApplicant (store : List Applicant) (a : Applicant) :
    Except RegError (List Applicant) :=
  if store.any (fun x => x.mobile = a.mobile) then .error .DuplicateMobile
  else if store.any (fun x => x.registrationId = a.registrationId) then
    .error .DuplicateRegistrationId
  else .ok (a :: store)

/-- Modelled from the spec: an admin status update mutates only the
`status` field (spec §3 lists the mutable fields of an applicant; the
server handlers are not in the source tree). -/
def setStatusOp (store : List Applicant) (i : String) (st : String) : List Applicant :=
  store.map (fun x => if x.id = i then { x with status := st } else x)

/-- Modelled from the spec: an admin update of the submission gates
mutates only `submission_deadline` and `submission_enabled`. -/
def setGatesOp (store : List Applicant) (i : String) (d : Option Nat) (e : Bool) :
    List Applicant :=
  store.map (fun x => if x.id = i then
    { x with submissionDeadline := d, submissionEnabled := e } else x)

/-- The operations of the applicant store: registration inserts (a
failed insert leaves the store unchanged), admin status updates and
submission-gate updates. -/
inductive StoreOp where
  | register (a : Applicant)
  | setStatus (i : String) (st : String)
  | setGates (i : String) (d : Option Nat) (e : Bool)

/-- Apply one operation to the applicant store. -/
def applyOp (store : List Applicant) : StoreOp → List Applicant
  | .register a =>
    match registerApplicant store a with
    | .ok s2 => s2
    | .error _ => store
  | .setStatus i st => setStatusOp store i st
  | .setGates i d e => setGatesOp store i d e

/-- The applicant stores reachable from the empty store by the modelled
operations. -/
inductive Reachable : List Applicant → Prop where
  | init : Reachable []
  | step (op : StoreOp) {s : List Applicant} : Reachable s → Reachable (applyOp s op)

/-- No two applicant records share a mobile number or a registration
id. -/
def applicantKeysDistinct (s : List Applicant) : Prop :=
  s.Pairwise (fun a b => a.mobile ≠ b.mobile ∧ a.registrationId ≠ b.registrationId)

lemma registerApplicant_ok {store : List Applicant} {a : Applicant} {s2 : List Applicant}
    (h : registerApplicant store a = .ok s2) :
    s2 = a :: store ∧ (∀ x ∈ store, ¬ x.mobile = a.mobile)
    ∧ (∀ x ∈ store, ¬ x.registrationId = a.registrationId) := by
  unfold registerApplicant at h
  by_cases h1 : store.any (fun x => x.mobile = a.mobile)
  · rw [if_pos h1] at h
    exact absurd h (by simp)
  · rw [if_neg h1] at h
    by_cases h2 : store.any (fun x => x.registrationId = a.registrationId)
    · rw [if_pos h2] at h
      exact absurd h (by simp)
    · rw [if_neg h2] at h
      simp only [Except.ok.injEq] at h
      refine ⟨h.symm, ?_, ?_⟩
      · intro x hx hm
        exact h1 (List.any_eq_true.mpr ⟨x, hx, by simp [hm]⟩)
      · intro x hx hr
        exact h2 (List.any_eq_true.mpr ⟨x, hx, by simp [hr]⟩)

lemma pairwise_map_patch {s : List Applicant} (f : Applicant → Applicant)
    (hm : ∀ x, (f x).mobile = x.mobile) (hr : ∀ x, (f x).registrationId = x.registrationId)
    (h : applicantKeysDistinct s) : applicantKeysDistinct (s.map f) := by
  unfold applicantKeysDistinct at h ⊢
  exact h.map f
    (fun a b hab => ⟨by rw [hm a, hm b]; exact hab.1, by rw [hr a, hr b]; exact hab.2⟩)

/-- Every operation maps each existing applicant to a record with the
same database id and the same registration id. -/
lemma registrationId_immutable (s : List Applicant) (op : StoreOp) :
    ∀ a ∈ s, ∃ b ∈ applyOp s op, b.id = a.id ∧ b.registrationId = a.registrationId := by
  intro a ha
  cases op with
  | register a0 =>
    simp only [applyOp]
    rcases hreg : registerApplicant s a0 with e | s2
    · exact ⟨a, ha, rfl, rfl⟩
    · obtain ⟨hs2, -, -⟩ := registerApplicant_ok hreg
      refine ⟨a, ?_, rfl, rfl⟩
      show a ∈ s2
      rw [hs2]
      exact List.mem_cons_of_mem a0 ha
  | setStatus i st =>
    refine ⟨if a.id = i then { a with status := st } else a, ?_, ?_, ?_⟩
    · exact List.mem_map_of_mem _ ha
    · by_cases h : a.id = i <;> simp [h]
    · by_cases h : a.id = i <;> simp [h]
  | setGates i d e =>
    refine ⟨if a.id = i then { a with submissionDeadline := d, submissionEnabled := e }
        else a, ?_, ?_, ?_⟩
    · exact List.mem_map_of_mem _ ha
    · by_cases h : a.id = i <;> simp [h]
    · by_cases h : a.id = i <;> simp [h]

/-- C9: in every reachable applicant store no two records share a
mobile number and no two share a registration id, and every operation
preserves each existing applicant's registration id (once assigned it is
never changed). -/
theorem applicant_store_invariants (s : List Applicant) (h : Reachable s) :
    applicantKeysDistinct s
    ∧ ∀ op : StoreOp, ∀ a ∈ s, ∃ b ∈ applyOp s op,
        b.id = a.id ∧ b.registrationId = a.registrationId := by
  refine ⟨?_, fun op => registrationId_immutable s op⟩
  induction h with
  | init => exact List.Pairwise.nil
  | @step op s0 h0 ih =>
    cases op with
    | register a0 =>
      simp only [applyOp]
      rcases hreg : registerApplicant s0 a0 with e | s2
      · exact ih
      · obtain ⟨hs2, hm, hr⟩ := registerApplicant_ok hreg
        show applicantKeysDistinct s2
        rw [hs2]
        exact List.pairwise_cons.mpr
          ⟨fun b hb => ⟨fun hmm => hm b hb hmm.symm, fun hrr => hr b hb hrr.symm⟩, ih⟩
    | setStatus i st =>
      exact pairwise_map_patch _
        (fun x => by by_cases h : x.id = i <;> simp [h])
        (fun x => by by_cases h : x.id = i <;> simp [h]) ih
    | setGates i d e =>
      exact pairwise_map_patch _
        (fun x => by by_cases h : x.id = i <;> simp [h])
        (fun x => by by_cases h : x.id = i <;> simp [h]) ih

/-- A concrete applicant record used by the witnesses. -/
def applicantA : Applicant :=
  { id := "a1", registrationId := "REG-001", name := "Asha", email := "asha@mail.test",
    mobile := "9876543210", status := "registered", submissionDeadline := none,
    submissionEnabled := false }

/-- A second concrete applicant sharing `applicantA`'s mobile number. -/
def applicantB : Applicant :=
  { id := "a2", registrationId := "REG-002", name := "Bala", email := "bala@mail.test",
    mobile := "9876543210", status := "registered", submissionDeadline := none,
    submissionEnabled := false }

/-- Witness for C9 at a concrete reachable store: the store obtained by
registering `applicantA` into the empty store satisfies the key
uniqueness and registration-id immutability invariants. -/
theorem applicant_store_invariants_witness :
    applicantKeysDistinct (applyOp [] (.register applicantA))
    ∧ ∀ op : StoreOp, ∀ a ∈ applyOp [] (.register applicantA),
        ∃ b ∈ applyOp (applyOp [] (.register applicantA)) op,
          b.id = a.id ∧ b.registrationId = a.registrationId :=
  applicant_store_invariants (applyOp [] (.register applicantA))
    (Reachable.step (.register applicantA) Reachable.init)

/-! ## Registration error handling -/

/-- The error object thrown by `throwIfResNotOk` in
`client/src/hooks/useAuth.ts`: message, the response's optional
`fieldErrors` payload, and the HTTP status. -/
structure ClientError where
  message : String
  fieldErrors : Option (List (String × String))
  status : Nat
deriving Repr, DecidableEq

/-- The field-scoped message the registration flow attaches to the
mobile input for a duplicate mobile number
(`Registration.tsx`). -/
def mobileDupMessage : String := "Mobile number already registered"

/-- The field-scoped message for a duplicate email
(`Registration.tsx`). -/
def emailDupMessage : String := "Email already registered"

/-- Outcome of the registration endpoint as seen by the client: success
with a registration id, a field-scoped error map, or a generic
failure. -/
inductive RegisterOutcome where
  | okReg (registrationId : String)
  | fieldError (fields : List (String × String))
  | genericError (msg : String)
deriving Repr, DecidableEq

/-- Modelled from the spec: the server `POST /api/register` handler is
not in the source tree; per §7 a duplicate email/mobile at registration
produces a field-level error distinguishable from a generic failure, and
duplicate detection follows the `applicants_mobile_unique` constraint of
the migration. -/
def registerResponse (store : List Applicant) (a : Applicant) : RegisterOutcome :=
  match registerApplicant store a with
  | .ok _ => .okReg a.registrationId
  | .error .DuplicateMobile => .fieldError [("mobile", mobileDupMessage)]
  | .error .DuplicateRegistrationId => .genericError "Registration failed"

/-- The message-pattern fallback of `registrationMutation.onError` in
`Registration.tsx`: scan the lower-cased error message for
`email`/`mobile` together with `registered`. -/
def msgDerivedErrors (msg : String) : List (String × String) :=
  let m := msg.toLower
  (if m.containsSubstr "email".toSubstring && m.containsSubstr "registered".toSubstring
    then [("email", emailDupMessage)] else [])
  ++ (if m.containsSubstr "mobile".toSubstring && m.containsSubstr "registered".toSubstring
    then [("mobile", mobileDupMessage)] else [])

/-- The registration error handler `registrationMutation.onError` of
`Registration.tsx`: collect field errors first from the server's
`fieldErrors` payload, then from known message patterns; when any field
error was collected, attach them to the inputs and suppress the generic
toast, otherwise show the toast.  Returns the field errors set on the
form and whether the generic toast is shown. -/
def onRegistrationError (e : ClientError) : List (String × String) × Bool :=
  if (!(e.fieldErrors.getD []).isEmpty || !(msgDerivedErrors e.message).isEmpty)
      && !((e.fieldErrors.getD []) ++ msgDerivedErrors e.message).isEmpty
  then ((e.fieldErrors.getD []) ++ msgDerivedErrors e.message, false)
  else ([], true)

/-- C1: registration with a mobile number already present in another
applicant record fails with a field-scoped duplicate error naming
`mobile`, never a generic failure; the client error handler attaches the
message to the mobile input and suppresses the generic toast, whatever
the accompanying error message. -/
theorem register_duplicate_mobile_field_error (store : List Applicant) (a : Applicant)
    (h : ∃ b ∈ store, b.mobile = a.mobile) :
    registerResponse store a = .fieldError [("mobile", mobileDupMessage)]
    ∧ ∀ msg : String, ∀ st : Nat,
        (onRegistrationError ⟨msg, some [("mobile", mobileDupMessage)], st⟩).2 = false
        ∧ ("mobile", mobileDupMessage)
            ∈ (onRegistrationError ⟨msg, some [("mobile", mobileDupMessage)], st⟩).1 := by
  constructor
  · obtain ⟨b, hb, hm⟩ := h
    have hany : store.any (fun x => x.mobile = a.mobile) = true :=
      List.any_eq_true.mpr ⟨b, hb, by simp [hm]⟩
    unfold registerResponse registerApplicant
    rw [if_pos hany]
  · intro msg st
    unfold onRegistrationError
    rw [if_pos (by simp)]
    exact ⟨rfl, by simp⟩

/-- Witness for C1 at a concrete store: `applicantB` registers with the
mobile number of the already-stored `applicantA`; the server reports a
field error naming `mobile` and the client suppresses the toast. -/
theorem register_duplicate_mobile_field_error_witness :
    registerResponse [applicantA] applicantB
      = .fieldError [("mobile", mobileDupMessage)]
    ∧ ∀ msg : String, ∀ st : Nat,
        (onRegistrationError ⟨msg, some [("mobile", mobileDupMessage)], st⟩).2 = false
        ∧ ("mobile", mobileDupMessage)
            ∈ (onRegistrationError ⟨msg, some [("mobile", mobileDupMessage)], st⟩).1 :=
  register_duplicate_mobile_field_error [applicantA] applicantB
    ⟨applicantA, by simp, by decide⟩

/-! ## Bulk decision import -/

/-- A decision applied to an applicant's submission by the bulk
import. -/
inductive Decision where
  | accept
  | reject
deriving Repr, DecidableEq

/-- One row of the bulk decision upload: applicant identifier
(registration id, per the upload template of the bulk selection modal),
stage, decision. -/
structure BulkRow where
  applicantIdent : String
  stageId : String
  decision : Decision
deriving Repr, DecidableEq

/-- Per-row failure reasons of the bulk import. -/
inductive BulkError where
  | NotFoundApplicant
  | NoEligibleSubmission
deriving Repr, DecidableEq

/-- Per-row outcome reported back to the caller: the applicant
identifier together with success or the failure reason; the row index is
the outcome's position in the returned list. -/
inductive RowResult where
  | rowOk (applicantIdent : String)
  | rowErr (applicantIdent : String) (reason : BulkError)
deriving Repr, DecidableEq

/-- The submission status an accepted/rejected decision writes. -/
def decisionStatus : Decision → SubmissionStatus
  | .accept => .accepted
  | .reject => .rejected

/-- Is this submission row the one a bulk decision for `(aid, stageId)`
applies to: owned by the applicant, in the stage, and in a reviewable
state (`submitted` or `under_review`)? -/
def eligibleForDecision (s : StageSubmission) (aid stageId : String) : Bool :=
  s.applicantId = aid && s.stageId = stageId
    && (s.status = SubmissionStatus.submitted || s.status = SubmissionStatus.underReview)

/-- Modelled from the spec: one row of the bulk decision import — the
`/api/applicant-selection/upload` handler is not in the source tree.
Resolves the applicant by registration id, finds the reviewable
submission for the stage, and applies the decision; a failing row leaves
the store unchanged and reports its reason. -/
def applyDecisionRow (applicants : List Applicant) (subs : List StageSubmission)
    (row : BulkRow) : RowResult × List StageSubmission :=
  match applicants.find? (fun a => a.registrationId = row.applicantIdent) with
  | none => (.rowErr row.applicantIdent .NotFoundApplicant, subs)
  | some a =>
    match subs.find? (fun s => eligibleForDecision s a.id row.stageId) with
    | none => (.rowErr row.applicantIdent .NoEligibleSubmission, subs)
    | some s =>
      (.rowOk row.applicantIdent,
        subs.map (fun x => if x.id = s.id then
          { x with status := decisionStatus row.decision } else x))

/-- Modelled from the spec: the bulk decision import processes the rows
in order, collecting each row's outcome instead of aborting the batch;
it always returns a result list (one outcome per row) and the final
store. -/
def processBulk (applicants : List Applicant) (subs : List StageSubmission) :
    List BulkRow → List RowResult × List StageSubmission
  | [] => ([], subs)
  | row :: rest =>
    let p := applyDecisionRow applicants subs row
    let q := processBulk applicants p.2 rest
    (p.1 :: q.1, q.2)

lemma processBulk_append (applicants : List Applicant) (subs : List StageSubmission)
    (rows1 rows2 : List BulkRow) :
    processBulk applicants subs (rows1 ++ rows2)
      = ((processBulk applicants subs rows1).1
          ++ (processBulk applicants (processBulk applicants subs rows1).2 rows2).1,
         (processBulk applicants (processBulk applicants subs rows1).2 rows2).2) := by
  induction rows1 generalizing subs with
  | nil => simp [processBulk]
  | cons row rest ih =>
    simp only [List.cons_append, processBulk, List.append_eq]
    rw [ih]

lemma processBulk_length (applicants : List Applicant) (subs : List StageSubmission)
    (rows : List BulkRow) :
    (processBulk applicants subs rows).1.length = rows.length := by
  induction rows generalizing subs with
  | nil => rfl
  | cons row rest ih => simp [processBulk, ih]

lemma applyDecisionRow_not_found {applicants : List Applicant} {row : BulkRow}
    (h : applicants.find? (fun a => a.registrationId = row.applicantIdent) = none)
    (subs : List StageSubmission) :
    applyDecisionRow applicants subs row
      = (.rowErr row.applicantIdent .NotFoundApplicant, subs) := by
  unfold applyDecisionRow
  rw [h]

/-- C7: the bulk decision import never aborts the batch on a single
row's failure — a row referencing an unknown applicant is reported as
`NotFound` in place, every other row's outcome and the final store are
exactly as if the failing row were absent, and the call always returns
one outcome per input row (a partial-success result, not a thrown
error). -/
theorem bulk_decisions_partial_failure (applicants : List Applicant)
    (subs : List StageSubmission) (rows1 rows2 : List BulkRow) (bad : BulkRow)
    (h : applicants.find? (fun a => a.registrationId = bad.applicantIdent) = none) :
    (processBulk applicants subs (rows1 ++ bad :: rows2)).1
      = (processBulk applicants subs rows1).1
        ++ RowResult.rowErr bad.applicantIdent .NotFoundApplicant
           :: (processBulk applicants (processBulk applicants subs rows1).2 rows2).1
    ∧ (processBulk applicants subs (rows1 ++ bad :: rows2)).2
      = (processBulk applicants (processBulk applicants subs rows1).2 rows2).2
    ∧ ∀ rs : List BulkRow, ∀ subs2 : List StageSubmission,
        (processBulk applicants subs2 rs).1.length = rs.length := by
  have hbad : ∀ subs2 : List StageSubmission,
      processBulk applicants subs2 (bad :: rows2)
        = (RowResult.rowErr bad.applicantIdent .NotFoundApplicant
            :: (processBulk applicants subs2 rows2).1,
           (processBulk applicants subs2 rows2).2) := by
    intro subs2
    simp only [processBulk]
    rw [applyDecisionRow_not_found h]
  rw [processBulk_append, hbad]
  exact ⟨rfl, rfl, fun rs subs2 => processBulk_length applicants subs2 rs⟩

/-- A third concrete applicant used by the bulk-import witness. -/
def applicantC : Applicant :=
  { id := "a3", registrationId := "REG-003", name := "Chitra", email := "chitra@mail.test",
    mobile := "9123456789", status := "registered", submissionDeadline := none,
    submissionEnabled := true }

/-- Witness for C7 at the spec's concrete scenario: three rows where the
second references a non-existent applicant; rows 1 and 3 succeed, row 2
is reported `NotFound`, and the call returns three outcomes. -/
theorem bulk_decisions_partial_failure_witness :
    [applicantA, applicantC].find? (fun a => a.registrationId = "REG-404") = none
    ∧ (processBulk [applicantA, applicantC]
        [{ id := 11, applicantId := "a1", stageId := "stage-1",
           status := .submitted, submittedAt := some 50 },
         { id := 13, applicantId := "a3", stageId := "stage-1",
           status := .submitted, submittedAt := some 60 }]
        [{ applicantIdent := "REG-001", stageId := "stage-1", decision := .accept },
         { applicantIdent := "REG-404", stageId := "stage-1", decision := .accept },
         { applicantIdent := "REG-003", stageId := "stage-1", decision := .reject }]).1
      = [.rowOk "REG-001",
         .rowErr "REG-404" .NotFoundApplicant,
         .rowOk "REG-003"]
    ∧ ∀ rs : List BulkRow, ∀ subs2 : List StageSubmission,
        (processBulk [applicantA, applicantC] subs2 rs).1.length = rs.length :=
  ⟨by decide, by decide,
   (bulk_decisions_partial_failure [applicantA, applicantC]
     [{ id := 11, applicantId := "a1", stageId := "stage-1",
        status := .submitted, submittedAt := some 50 },
      { id := 13, applicantId := "a3", stageId := "stage-1",
        status := .submitted, submittedAt := some 60 }]
     [{ applicantIdent := "REG-001", stageId := "stage-1", decision := .accept }]
     [{ applicantIdent := "REG-003", stageId := "stage-1", decision := .reject }]
     { applicantIdent := "REG-404", stageId := "stage-1", decision := .accept }
     (by decide)).2.2⟩

/-! ## Rate limiting middleware -/

/-- `windowMs: 15 * 60 * 1000` of the `express-rate-limit` configuration
in the server entry file. -/
def windowMs : Nat := 15 * 60 * 1000

/-- `max: 100` of the `express-rate-limit` configuration: "limit each IP
to 100 requests per windowMs". -/
def maxHits : Nat := 100

/-- Per-IP state of the rate limiter: window start and request count. -/
structure LimiterEntry where
  ip : String
  windowStart : Nat
  count : Nat
deriving Repr, DecidableEq

/-- The `express-rate-limit` middleware applied to all routes in the
server entry file, keyed on the client IP: a request within a live
window increments that IP's counter and is allowed while the counter is
below `max`; once an IP's window has elapsed the counter restarts.
Returns whether the request is allowed and the new limiter state.  The
limiter never consults the request body, so OTP identifiers and purposes
play no role. -/
def limiterHit (st : List LimiterEntry) (ip : String) (now : Nat) :
    Bool × List LimiterEntry :=
  match st.find? (fun e => e.ip = ip) with
  | none => (true, { ip := ip, windowStart := now, count := 1 } :: st)
  | some e =>
    if e.windowStart + windowMs ≤ now then
      (true, st.map (fun x => if x.ip = ip then
        { x with windowStart := now, count := 1 } else x))
    else if e.count < maxHits then
      (true, st.map (fun x => if x.ip = ip then { x with count := x.count + 1 } else x))
    else (false, st)

/-- C8 counterexample: two requests issued back to back at the same
instant — both would carry the same OTP identifier and purpose — pass
the rate limiter, and so does a simultaneous request from a second IP:
below 100 requests per window the limiter rejects nothing, so requests
for the same identifier arriving faster than any minimum interval are
not rejected, and the limiter state is keyed on the client IP, not on
identifier+purpose. -/
theorem rate_limit_counterexample :
    (limiterHit [] "198.51.100.7" 0).1 = true
    ∧ (limiterHit (limiterHit [] "198.51.100.7" 0).2 "198.51.100.7" 0).1 = true
    ∧ (limiterHit (limiterHit [] "198.51.100.7" 0).2 "203.0.113.9" 0).1 = true := by
  decide

/-- C8 amended: the rate limiting present in the code is the
`express-rate-limit` middleware applied to all routes and keyed on the
client IP, not on identifier+purpose: an IP whose live window has
reached 100 requests is rejected, while a request from an IP the limiter
has not seen is always allowed, whatever identifier or purpose the
request carries (the limiter never consults them). -/
theorem rate_limit_keyed_on_ip (st : List LimiterEntry) (ip : String) (now : Nat)
    (e : LimiterEntry)
    (h1 : st.find? (fun x => x.ip = ip) = some e)
    (h2 : now < e.windowStart + windowMs)
    (h3 : maxHits ≤ e.count) :
    (limiterHit st ip now).1 = false
    ∧ ∀ ip2 : String, st.find? (fun x => x.ip = ip2) = none →
        (limiterHit st ip2 now).1 = true := by
  constructor
  · unfold limiterHit
    rw [h1]
    simp only
    rw [if_neg (Nat.not_le_of_lt h2), if_neg (Nat.not_lt_of_le h3)]
  · intro ip2 h4
    unfold limiterHit
    rw [h4]

/-- Witness for the amended C8 at a concrete limiter state: an IP with
100 requests in a live window is rejected; a fresh IP is allowed. -/
theorem rate_limit_keyed_on_ip_witness :
    (limiterHit [{ ip := "198.51.100.7", windowStart := 0, count := 100 }]
      "198.51.100.7" 1000).1 = false
    ∧ ∀ ip2 : String,
        [{ ip := "198.51.100.7", windowStart := 0, count := 100 }].find?
          (fun x => LimiterEntry.ip x = ip2) = none →
        (limiterHit [{ ip := "198.51.100.7", windowStart := 0, count := 100 }]
          ip2 1000).1 = true :=
  rate_limit_keyed_on_ip [{ ip := "198.51.100.7", windowStart := 0, count := 100 }]
    "198.51.100.7" 1000 { ip := "198.51.100.7", windowStart := 0, count := 100 }
    (by decide) (by decide) (by decide)

/-! ## Client query function and 401 policy -/

/-- The body of an HTTP response as the client reads it: either JSON
with optional `message` and `fieldErrors` fields, or raw text. -/
inductive Body where
  | jsonBody (message : Option String) (fieldErrors : Option (List (String × String)))
  | textBody (t : String)
deriving Repr, DecidableEq

/-- An HTTP response as seen by the fetch-based client code. -/
structure Response where
  status : Nat
  statusText : String
  body : Body
deriving Repr, DecidableEq

/-- `res.ok` of the fetch API: status in the 2xx range. -/
def resOk (r : Response) : Bool := decide (200 ≤ r.status ∧ r.status < 300)

/-- Error message resolution of `throwIfResNotOk` (`useAuth.ts`): a
JSON body's `message` field, else the raw text, else the status
text. -/
def errorMessageOf (r : Response) : String :=
  match r.body with
  | .jsonBody m _ => m.getD r.statusText
  | .textBody t => if t = "" then r.statusText else t

/-- The `fieldErrors` payload `throwIfResNotOk` copies onto the thrown
error. -/
def fieldErrorsOf (r : Response) : Option (List (String × String)) :=
  match r.body with
  | .jsonBody _ fe => fe
  | .textBody _ => none

/-- `throwIfResNotOk` of `useAuth.ts`: on a non-ok response, throw an
error carrying the resolved message, the `fieldErrors` payload and the
response status. -/
def throwIfResNotOk (r : Response) : Except ClientError Unit :=
  if resOk r then .ok () else .error ⟨errorMessageOf r, fieldErrorsOf r, r.status⟩

/-- The `on401: UnauthorizedBehavior` policy of `getQueryFn`
(`useAuth.ts`). -/
inductive On401 where
  | returnNull
  | throwError
deriving Repr, DecidableEq

/-- `getQueryFn` of `useAuth.ts`: with `on401: "returnNull"` a 401
response yields `null`; otherwise a non-ok response throws via
`throwIfResNotOk`, and an ok response yields its JSON body. -/
def getQueryFn (p : On401) (r : Response) : Except ClientError (Option Body) :=
  if p = .returnNull ∧ r.status = 401 then .ok none
  else
    match throwIfResNotOk r with
    | .error e => .error e
    | .ok _ => .ok (some r.body)

/-- The query client default of `useAuth.ts`:
`queryFn: getQueryFn({ on401: "throw" })`. -/
def queryClientDefaultOn401 : On401 := .throwError

/-- `useAuth` (`useAuth.ts`): `isAuthenticated = !!user`. -/
def isAuthenticatedOf (user : Option Body) : Bool := user.isSome

/-- C10: a 401 response is handled by policy, not uniformly — with
`on401 = returnNull` the query function returns null (so `useAuth`
reports `isAuthenticated = false` without raising an error), while with
the query client default `on401 = throw` the same 401 response causes an
error carrying the response status to be thrown. -/
theorem get_query_fn_on401_policy (r : Response) (h : r.status = 401) :
    (getQueryFn .returnNull r = .ok none ∧ isAuthenticatedOf none = false)
    ∧ ∃ e : ClientError,
        getQueryFn queryClientDefaultOn401 r = .error e ∧ e.status = 401 := by
  have hok : resOk r = false := by simp [resOk, h]
  constructor
  · exact ⟨by unfold getQueryFn; rw [if_pos ⟨rfl, h⟩], rfl⟩
  · refine ⟨⟨errorMessageOf r, fieldErrorsOf r, r.status⟩, ?_, h⟩
    unfold getQueryFn
    rw [if_neg (by simp [queryClientDefaultOn401])]
    unfold throwIfResNotOk
    rw [hok]
    simp

/-- Witness for C10 at a concrete 401 response: the returnNull policy
yields null and an unauthenticated view; the default policy throws with
status 401. -/
theorem get_query_fn_on401_policy_witness :
    (getQueryFn .returnNull
        { status := 401, statusText := "Unauthorized",
          body := .jsonBody (some "Authentication Error") none }
      = .ok none
      ∧ isAuthenticatedOf none = false)
    ∧ ∃ e : ClientError,
        getQueryFn queryClientDefaultOn401
            { status := 401, statusText := "Unauthorized",
              body := .jsonBody (some "Authentication Error") none }
          = .error e ∧ e.status = 401 :=
  get_query_fn_on401_policy
    { status := 401, statusText := "Unauthorized",
      body := .jsonBody (some "Authentication Error") none } rfl

end HackWeb
